import Mathlib

/-!
Verification of the "Image Occlusion" SVG-edit extension
(src/svg-edit/editor/extensions/ext-image-occlusion.js).

The extension keeps a store of OCR rectangles on the canvas object,
draws rectangle elements from them, filters them against a selection box
by a strict interval-overlap test, and registers each drawing action as a
single batch command in the host editor's undo history.

The JavaScript is embedded shallowly: canvas-level mutable state
(`storedOcrRects`, the document tree, the undo history, the emitted
"changed" notifications, the ambient style state and the id allocator)
becomes an explicit `CanvasState` record, and each function becomes a
state-passing Lean function.  JS `undefined` arguments are modelled with
`Option` (`none` = absent); numeric coordinates are modelled as `Int`.
-/

/-- A rectangle descriptor as delivered by the external OCR source:
top-left corner `x`, `y` and extents `w`, `h`. -/
structure Rect where
  x : Int
  y : Int
  w : Int
  h : Int
deriving DecidableEq

/-- The selection box passed to `drawOcrRectsInSelection`:
top-left corner `x`, `y` and extents `width`, `height`. -/
structure SelectionBox where
  x : Int
  y : Int
  width : Int
  height : Int
deriving DecidableEq

/-- A created SVG `rect` element, carrying the attributes that
`addSvgElementFromJson` receives in the source: geometry from the
descriptor, ambient fill/stroke/stroke-width, and a fresh id. -/
structure Elem where
  x : Int
  y : Int
  width : Int
  height : Int
  fill : String
  stroke : String
  strokeWidth : Int
  id : String
deriving DecidableEq

/-- `new InsertElementCommand(elem)`: a history sub-command wrapping one
created element. -/
structure InsertElementCommand where
  elem : Elem
deriving DecidableEq

/-- `new BatchCommand(name)` after its sub-commands have been added:
a named ordered collection of sub-commands. -/
structure BatchCommand where
  name : String
  subCommands : List InsertElementCommand
deriving DecidableEq

/-- `batchCmd.isEmpty()`: whether the batch has no sub-commands. -/
def BatchCommand.isEmpty (b : BatchCommand) : Bool :=
  b.subCommands.isEmpty

/-- The canvas-level state the extension touches: ambient style state and
id allocator, the stored OCR rectangles (`none` models an absent /
`undefined` store), the document tree, the undo history stack, and the
list of payloads of emitted "changed" notifications. -/
structure CanvasState where
  fill : String
  stroke : String
  strokeWidth : Int
  nextIdCounter : Nat
  storedOcrRects : Option (List Rect)
  docElems : List Elem
  history : List BatchCommand
  changedEvents : List (List Elem)
deriving DecidableEq

/-- `svgCanvas.getNextId()`: a fresh id from the allocator counter. -/
def getNextId (s : CanvasState) : String :=
  "svg_" ++ toString s.nextIdCounter

/-- `svgCanvas.addSvgElementFromJson({element: "rect", attr: {...}})`:
creates one rect element with the descriptor's geometry and the ambient
style state, inserts it into the document tree and bumps the id
allocator.  Returns the created element and the new state. -/
def addSvgElementFromJson (s : CanvasState) (r : Rect) : Elem × CanvasState :=
  let e : Elem :=
    { x := r.x, y := r.y, width := r.w, height := r.h,
      fill := s.fill, stroke := s.stroke, strokeWidth := s.strokeWidth,
      id := getNextId s }
  (e, { s with nextIdCounter := s.nextIdCounter + 1,
               docElems := s.docElems ++ [e] })

/-- The `rects.forEach(...)` creation loop shared by `drawOcrRects` and
`drawOcrRectsInSelection`: creates one element per descriptor in input
order, returning the collected elements (in creation order) and the final
state. -/
def createElems (s : CanvasState) : List Rect → List Elem × CanvasState
  | [] => ([], s)
  | r :: rs =>
    let p := addSvgElementFromJson s r
    let q := createElems p.2 rs
    (p.1 :: q.1, q.2)

/-- `name = name || "Create Occlusion Masks"`: JS defaulting of the
action name; `undefined` and `""` are the falsy string arguments. -/
def resolveActionName : Option String → String
  | none => "Create Occlusion Masks"
  | some n => if n = "" then "Create Occlusion Masks" else n

/-- `finalizeCreation(new_elems, name)`: no-op on absent or empty
`new_elems`; otherwise builds a batch command named
`name || "Create Occlusion Masks"`, adding one `InsertElementCommand`
per element while iterating backwards (`for i = length-1; i >= 0; i--`),
and, if the batch is non-empty, pushes it to the history stack and emits
one "changed" notification carrying `new_elems`. -/
def finalizeCreation (s : CanvasState) (new_elems : Option (List Elem))
    (name : Option String) : CanvasState :=
  match new_elems with
  | none => s
  | some elems =>
    if elems.length = 0 then s
    else
      let batchCmd : BatchCommand :=
        { name := resolveActionName name,
          subCommands := elems.reverse.map InsertElementCommand.mk }
      if batchCmd.isEmpty then s
      else
        { s with history := s.history ++ [batchCmd],
                 changedEvents := s.changedEvents ++ [elems] }

/-- `svgCanvas.storeOcrResults(rects)`: unconditionally replaces the
stored rectangle sequence. -/
def storeOcrResults (s : CanvasState) (rects : Option (List Rect)) : CanvasState :=
  { s with storedOcrRects := rects }

/-- `svgCanvas.drawOcrRects(rects)`: no-op on absent or empty input;
otherwise creates one element per descriptor in input order and finalizes
them under the action name "Create All Occlusion Masks". -/
def drawOcrRects (s : CanvasState) (rects : Option (List Rect)) : CanvasState :=
  match rects with
  | none => s
  | some rs =>
    if rs.length = 0 then s
    else
      let res := createElems s rs
      finalizeCreation res.2 (some res.1) (some "Create All Occlusion Masks")

/-- The intersection test of `drawOcrRectsInSelection`:
`selX1 < ocrX2 && selX2 > ocrX1 && selY1 < ocrY2 && selY2 > ocrY1`
with `ocrX2 = ocrRect.x + ocrRect.w` and `ocrY2 = ocrRect.y + ocrRect.h`. -/
def intersects (sel : SelectionBox) (ocrRect : Rect) : Bool :=
  decide (sel.x < ocrRect.x + ocrRect.w) &&
  decide (sel.x + sel.width > ocrRect.x) &&
  decide (sel.y < ocrRect.y + ocrRect.h) &&
  decide (sel.y + sel.height > ocrRect.y)

/-- The `rectsToDraw` list built by the `ocrRects.forEach` filtering loop
of `drawOcrRectsInSelection`: the stored rectangles that pass
`intersects`, in stored order. -/
def rectsToDraw (ocrRects : List Rect) (selectionBox : SelectionBox) : List Rect :=
  ocrRects.filter (fun r => intersects selectionBox r)

/-- `svgCanvas.drawOcrRectsInSelection(selectionBox)`: no-op on an absent
or empty store; otherwise filters the stored rectangles by `intersects`
and, when the filtered list is non-empty, creates one element per
filtered descriptor and finalizes them under the action name
"Create Occlusion Masks in Selection". -/
def drawOcrRectsInSelection (s : CanvasState) (selectionBox : SelectionBox) : CanvasState :=
  match s.storedOcrRects with
  | none => s
  | some ocrRects =>
    if ocrRects.length = 0 then s
    else
      let rtd := rectsToDraw ocrRects selectionBox
      if rtd.length > 0 then
        let res := createElems s rtd
        finalizeCreation res.2 (some res.1) (some "Create Occlusion Masks in Selection")
      else s

/-- The geometry attributes of a created element. -/
def elemGeom (e : Elem) : Int × Int × Int × Int :=
  (e.x, e.y, e.width, e.height)

/-- The geometry attributes of a rectangle descriptor. -/
def rectGeom (r : Rect) : Int × Int × Int × Int :=
  (r.x, r.y, r.w, r.h)

/-- Reading a rectangle descriptor as a selection box, for exchanging the
roles of the two boxes in the intersection test. -/
def rectToSel (r : Rect) : SelectionBox :=
  { x := r.x, y := r.y, width := r.w, height := r.h }

/-- Reading a selection box as a rectangle descriptor, for exchanging the
roles of the two boxes in the intersection test. -/
def selToRect (b : SelectionBox) : Rect :=
  { x := b.x, y := b.y, w := b.width, h := b.height }

/-! ### Helper lemmas about the creation loop and the finalizer -/

theorem createElems_geom (rects : List Rect) (s : CanvasState) :
    (createElems s rects).1.map elemGeom = rects.map rectGeom := by
  induction rects generalizing s with
  | nil => simp [createElems]
  | cons r rs ih =>
    simp [createElems, addSvgElementFromJson, elemGeom, rectGeom, ih]

theorem createElems_length (rects : List Rect) (s : CanvasState) :
    (createElems s rects).1.length = rects.length := by
  induction rects generalizing s with
  | nil => simp [createElems]
  | cons r rs ih => simp [createElems, ih]

theorem createElems_docElems (rects : List Rect) (s : CanvasState) :
    (createElems s rects).2.docElems = s.docElems ++ (createElems s rects).1 := by
  induction rects generalizing s with
  | nil => simp [createElems]
  | cons r rs ih =>
    simp [createElems, ih, addSvgElementFromJson]

theorem createElems_history (rects : List Rect) (s : CanvasState) :
    (createElems s rects).2.history = s.history := by
  induction rects generalizing s with
  | nil => simp [createElems]
  | cons r rs ih => simp [createElems, ih, addSvgElementFromJson]

theorem createElems_changedEvents (rects : List Rect) (s : CanvasState) :
    (createElems s rects).2.changedEvents = s.changedEvents := by
  induction rects generalizing s with
  | nil => simp [createElems]
  | cons r rs ih => simp [createElems, ih, addSvgElementFromJson]

theorem createElems_storedOcrRects (rects : List Rect) (s : CanvasState) :
    (createElems s rects).2.storedOcrRects = s.storedOcrRects := by
  induction rects generalizing s with
  | nil => simp [createElems]
  | cons r rs ih => simp [createElems, ih, addSvgElementFromJson]

theorem finalizeCreation_nonempty (s : CanvasState) (elems : List Elem)
    (name : Option String) (h : elems ≠ []) :
    finalizeCreation s (some elems) name =
      { s with
        history := s.history ++
          [{ name := resolveActionName name,
             subCommands := elems.reverse.map InsertElementCommand.mk }],
        changedEvents := s.changedEvents ++ [elems] } := by
  match elems, h with
  | e :: es, _ =>
    simp [finalizeCreation, BatchCommand.isEmpty, List.isEmpty_iff]

theorem finalizeCreation_docElems (s : CanvasState) (oe : Option (List Elem))
    (name : Option String) :
    (finalizeCreation s oe name).docElems = s.docElems := by
  match oe with
  | none => rfl
  | some elems =>
    by_cases h : elems = []
    · subst h; rfl
    · rw [finalizeCreation_nonempty s elems name h]

theorem finalizeCreation_storedOcrRects (s : CanvasState) (oe : Option (List Elem))
    (name : Option String) :
    (finalizeCreation s oe name).storedOcrRects = s.storedOcrRects := by
  match oe with
  | none => rfl
  | some elems =>
    by_cases h : elems = []
    · subst h; rfl
    · rw [finalizeCreation_nonempty s elems name h]

/-! ### Concrete fixtures for witnesses -/

/-- The canvas state right after `svgEditor.ready`: the source initializes
`svgCanvas.storedOcrRects = []`. -/
def initState : CanvasState :=
  { fill := "#FF7D7D", stroke := "#2D2D2D", strokeWidth := 1, nextIdCounter := 0,
    storedOcrRects := some [], docElems := [], history := [], changedEvents := [] }

/-- A concrete element, for exercising the finalizer. -/
def elemA : Elem :=
  { x := 1, y := 1, width := 2, height := 2,
    fill := "#FF7D7D", stroke := "#2D2D2D", strokeWidth := 1, id := "svg_0" }

/-- A second concrete element. -/
def elemB : Elem :=
  { x := 3, y := 3, width := 2, height := 2,
    fill := "#FF7D7D", stroke := "#2D2D2D", strokeWidth := 1, id := "svg_1" }

/-- A third concrete element. -/
def elemC : Elem :=
  { x := 5, y := 5, width := 2, height := 2,
    fill := "#FF7D7D", stroke := "#2D2D2D", strokeWidth := 1, id := "svg_2" }

/-! ### Claim theorems -/

/-- C10: the strict intersection test used by `drawOcrRectsInSelection` is
symmetric: applying the same test with the roles of selection box and
rectangle exchanged gives the same answer for every pair of boxes. -/
theorem intersects_symm (a : SelectionBox) (b : Rect) :
    intersects a b = intersects (rectToSel b) (selToRect a) := by
  rw [Bool.eq_iff_iff]
  simp only [intersects, rectToSel, selToRect, Bool.and_eq_true, decide_eq_true_eq,
    gt_iff_lt]
  omega

/-- C5: `storeOcrResults` replaces the stored sequence unconditionally
(including with an empty or absent one); after two successive calls the
whole state, and hence every subsequent `drawOcrRectsInSelection` result,
depends only on the second delivery. -/
theorem storeOcrResults_replaces (s : CanvasState) (r1 r2 : Option (List Rect))
    (sel : SelectionBox) :
    (storeOcrResults s r2).storedOcrRects = r2 ∧
    storeOcrResults (storeOcrResults s r1) r2 = storeOcrResults s r2 ∧
    drawOcrRectsInSelection (storeOcrResults (storeOcrResults s r1) r2) sel
      = drawOcrRectsInSelection (storeOcrResults s r2) sel :=
  ⟨rfl, rfl, rfl⟩

/-- C9: neither `drawOcrRects` nor `drawOcrRectsInSelection` (nor the
`finalizeCreation` helper they call) writes the rectangle store; only
`storeOcrResults` does. -/
theorem drawing_preserves_store (s : CanvasState) (rects : Option (List Rect))
    (sel : SelectionBox) (oelems : Option (List Elem)) (name : Option String)
    (r2 : Option (List Rect)) :
    (drawOcrRects s rects).storedOcrRects = s.storedOcrRects ∧
    (drawOcrRectsInSelection s sel).storedOcrRects = s.storedOcrRects ∧
    (finalizeCreation s oelems name).storedOcrRects = s.storedOcrRects ∧
    (storeOcrResults s r2).storedOcrRects = r2 := by
  refine ⟨?_, ?_, finalizeCreation_storedOcrRects s oelems name, rfl⟩
  · match rects with
    | none => rfl
    | some rs =>
      by_cases h : rs.length = 0
      · simp [drawOcrRects, h]
      · simp [drawOcrRects, h, finalizeCreation_storedOcrRects, createElems_storedOcrRects]
  · match hs : s.storedOcrRects with
    | none => simp [drawOcrRectsInSelection, hs]
    | some ocr =>
      by_cases h : ocr.length = 0
      · simp [drawOcrRectsInSelection, hs, h]
      · by_cases h2 : (rectsToDraw ocr sel).length > 0
        · simp [drawOcrRectsInSelection, hs, h, h2, finalizeCreation_storedOcrRects,
            createElems_storedOcrRects]
        · simp [drawOcrRectsInSelection, hs, h, h2]

/-- C4: on empty or absent input, `drawOcrRects`, `finalizeCreation` and
(for an empty or absent store) `drawOcrRectsInSelection` leave the whole
state unchanged: no element, no history entry, no notification. -/
theorem empty_input_noop (s : CanvasState) (sel : SelectionBox) (name : Option String)
    (hs : s.storedOcrRects = none ∨ s.storedOcrRects = some []) :
    drawOcrRects s none = s ∧ drawOcrRects s (some []) = s ∧
    finalizeCreation s none name = s ∧ finalizeCreation s (some []) name = s ∧
    drawOcrRectsInSelection s sel = s := by
  refine ⟨rfl, rfl, rfl, rfl, ?_⟩
  rcases hs with h | h <;> simp [drawOcrRectsInSelection, h]

/-- Witness for C4 at the initial state, whose store is `some []`. -/
theorem empty_input_noop_witness :
    (initState.storedOcrRects = none ∨ initState.storedOcrRects = some []) ∧
    (drawOcrRects initState none = initState ∧
     drawOcrRects initState (some []) = initState ∧
     finalizeCreation initState none none = initState ∧
     finalizeCreation initState (some []) none = initState ∧
     drawOcrRectsInSelection initState ⟨0, 0, 10, 10⟩ = initState) :=
  ⟨Or.inr rfl, empty_input_noop initState ⟨0, 0, 10, 10⟩ none (Or.inr rfl)⟩

/-- C2: on a non-empty element list, `finalizeCreation` pushes one batch
whose sub-commands wrap the elements in reverse creation order, while the
emitted changed-notification carries the elements in creation order. -/
theorem finalizeCreation_orders (s : CanvasState) (elems : List Elem)
    (name : Option String) (h : elems ≠ []) :
    (finalizeCreation s (some elems) name).history
      = s.history ++
        [{ name := resolveActionName name,
           subCommands := elems.reverse.map InsertElementCommand.mk }] ∧
    (finalizeCreation s (some elems) name).changedEvents
      = s.changedEvents ++ [elems] := by
  rw [finalizeCreation_nonempty s elems name h]
  exact ⟨rfl, rfl⟩

/-- Witness for C2: elements `[A, B, C]` yield the sub-command sequence
`[C, B, A]` and the changed payload `[A, B, C]`. -/
theorem finalizeCreation_orders_witness :
    ([elemA, elemB, elemC] ≠ ([] : List Elem)) ∧
    ((finalizeCreation initState (some [elemA, elemB, elemC]) none).history
       = initState.history ++
         [{ name := "Create Occlusion Masks",
            subCommands := [InsertElementCommand.mk elemC, InsertElementCommand.mk elemB,
              InsertElementCommand.mk elemA] }] ∧
     (finalizeCreation initState (some [elemA, elemB, elemC]) none).changedEvents
       = initState.changedEvents ++ [[elemA, elemB, elemC]]) :=
  ⟨by decide, finalizeCreation_orders initState [elemA, elemB, elemC] none (by decide)⟩

/-- C8: on a non-empty element list, the pushed batch is named by the
supplied action name, and an absent or empty name defaults to
"Create Occlusion Masks". -/
theorem finalizeCreation_action_name (s : CanvasState) (elems : List Elem)
    (name : Option String) (n : String) (h : elems ≠ []) (hn : n ≠ "") :
    (finalizeCreation s (some elems) name).history.map BatchCommand.name
      = s.history.map BatchCommand.name ++ [resolveActionName name] ∧
    resolveActionName none = "Create Occlusion Masks" ∧
    resolveActionName (some "") = "Create Occlusion Masks" ∧
    resolveActionName (some n) = n := by
  refine ⟨?_, rfl, rfl, by simp [resolveActionName, hn]⟩
  rw [finalizeCreation_nonempty s elems name h]
  simp

/-- Witness for C8 with a supplied non-empty action name. -/
theorem finalizeCreation_action_name_witness :
    (([elemA] : List Elem) ≠ [] ∧ "My Action" ≠ "") ∧
    ((finalizeCreation initState (some [elemA]) (some "My Action")).history.map
        BatchCommand.name
       = initState.history.map BatchCommand.name ++ ["My Action"] ∧
     resolveActionName none = "Create Occlusion Masks" ∧
     resolveActionName (some "") = "Create Occlusion Masks" ∧
     resolveActionName (some "My Action") = "My Action") :=
  ⟨⟨by decide, by decide⟩,
   finalizeCreation_action_name initState [elemA] (some "My Action") "My Action"
     (by decide) (by decide)⟩

/-- C3: on a non-empty descriptor list, `drawOcrRects` appends exactly one
element per descriptor to the document in input order (geometry matching
descriptor for descriptor), and emits exactly one changed-notification,
whose payload is the created elements in input order. -/
theorem drawOcrRects_per_descriptor (s : CanvasState) (rects : List Rect)
    (h : rects ≠ []) :
    (drawOcrRects s (some rects)).docElems
      = s.docElems ++ (createElems s rects).1 ∧
    (createElems s rects).1.map elemGeom = rects.map rectGeom ∧
    (createElems s rects).1.length = rects.length ∧
    (drawOcrRects s (some rects)).changedEvents
      = s.changedEvents ++ [(createElems s rects).1] := by
  have hne : (createElems s rects).1 ≠ [] := by
    intro hnil
    apply h
    have hl := createElems_length rects s
    rw [hnil] at hl
    exact List.length_eq_zero.mp hl.symm
  have hL : ¬ rects.length = 0 := by
    simpa [List.length_eq_zero] using h
  refine ⟨?_, createElems_geom rects s, createElems_length rects s, ?_⟩ <;>
  · simp only [drawOcrRects, if_neg hL]
    rw [finalizeCreation_nonempty _ _ _ hne]
    simp [createElems_docElems, createElems_changedEvents]

/-- A concrete descriptor list for exercising `drawOcrRects`. -/
def rectsC3 : List Rect := [⟨1, 2, 3, 4⟩, ⟨5, 6, 7, 8⟩]

/-- Witness for C3 on a two-descriptor input at the initial state. -/
theorem drawOcrRects_per_descriptor_witness :
    (rectsC3 ≠ []) ∧
    ((drawOcrRects initState (some rectsC3)).docElems
       = initState.docElems ++ (createElems initState rectsC3).1 ∧
     (createElems initState rectsC3).1.map elemGeom = rectsC3.map rectGeom ∧
     (createElems initState rectsC3).1.length = rectsC3.length ∧
     (drawOcrRects initState (some rectsC3)).changedEvents
       = initState.changedEvents ++ [(createElems initState rectsC3).1]) :=
  ⟨by decide, drawOcrRects_per_descriptor initState rectsC3 (by decide)⟩

/-- C7: `finalizeCreation` preserves the invariant that every batch on the
history stack has at least one sub-command, and on a non-empty element
list it pushes exactly the (non-empty) batch it constructed. -/
theorem finalizeCreation_no_empty_batch (s : CanvasState) (oelems : Option (List Elem))
    (es : List Elem) (name : Option String)
    (hinv : s.history.all (fun b => !(BatchCommand.isEmpty b)) = true) :
    (finalizeCreation s oelems name).history.all
        (fun b => !(BatchCommand.isEmpty b)) = true ∧
    (es ≠ [] →
      (finalizeCreation s (some es) name).history
        = s.history ++
          [{ name := resolveActionName name,
             subCommands := es.reverse.map InsertElementCommand.mk }] ∧
      BatchCommand.isEmpty
        { name := resolveActionName name,
          subCommands := es.reverse.map InsertElementCommand.mk } = false) := by
  constructor
  · match oelems with
    | none => exact hinv
    | some elems =>
      by_cases h : elems = []
      · subst h; exact hinv
      · rw [finalizeCreation_nonempty s elems name h]
        simp only [List.all_append, hinv, Bool.true_and, List.all_cons, List.all_nil,
          Bool.and_true]
        simp [BatchCommand.isEmpty, List.isEmpty_iff, h]
  · intro hes
    rw [finalizeCreation_nonempty s es name hes]
    refine ⟨rfl, ?_⟩
    simp [BatchCommand.isEmpty, List.isEmpty_iff, hes]

/-- Witness for C7 at the initial (empty) history with one element. -/
theorem finalizeCreation_no_empty_batch_witness :
    (initState.history.all (fun b => !(BatchCommand.isEmpty b)) = true) ∧
    ((finalizeCreation initState (some [elemA]) none).history.all
        (fun b => !(BatchCommand.isEmpty b)) = true ∧
     ([elemA] ≠ ([] : List Elem) →
       (finalizeCreation initState (some [elemA]) none).history
         = initState.history ++
           [{ name := "Create Occlusion Masks",
              subCommands := [InsertElementCommand.mk elemA] }] ∧
       BatchCommand.isEmpty
         { name := "Create Occlusion Masks",
           subCommands := [InsertElementCommand.mk elemA] } = false)) :=
  ⟨rfl, finalizeCreation_no_empty_batch initState (some [elemA]) [elemA] none rfl⟩

/-- C6: with a non-empty store, `drawOcrRectsInSelection` creates exactly
one element per strictly-intersecting stored rectangle and records exactly
one history entry named "Create Occlusion Masks in Selection" when the
filtered list is non-empty, and changes nothing when it is empty. -/
theorem drawOcrRectsInSelection_filtered (s : CanvasState) (rs : List Rect)
    (sel : SelectionBox) (hs : s.storedOcrRects = some rs) (hne : rs ≠ []) :
    (rectsToDraw rs sel ≠ [] →
      (drawOcrRectsInSelection s sel).docElems
        = s.docElems ++ (createElems s (rectsToDraw rs sel)).1 ∧
      (createElems s (rectsToDraw rs sel)).1.length = (rectsToDraw rs sel).length ∧
      (drawOcrRectsInSelection s sel).history.map BatchCommand.name
        = s.history.map BatchCommand.name ++ ["Create Occlusion Masks in Selection"]) ∧
    (rectsToDraw rs sel = [] → drawOcrRectsInSelection s sel = s) := by
  have hL : ¬ rs.length = 0 := by
    simpa [List.length_eq_zero] using hne
  constructor
  · intro hf
    have hflen : (rectsToDraw rs sel).length > 0 := by
      cases h' : rectsToDraw rs sel with
      | nil => exact absurd h' hf
      | cons a l => simp
    have hcne : (createElems s (rectsToDraw rs sel)).1 ≠ [] := by
      intro hnil
      apply hf
      have hl := createElems_length (rectsToDraw rs sel) s
      rw [hnil] at hl
      exact List.length_eq_zero.mp hl.symm
    simp only [drawOcrRectsInSelection, hs, if_neg hL, if_pos hflen]
    rw [finalizeCreation_nonempty _ _ _ hcne]
    refine ⟨?_, createElems_length _ _, ?_⟩
    · simp [createElems_docElems]
    · simp [createElems_history, resolveActionName]
  · intro hf
    simp [drawOcrRectsInSelection, hs, if_neg hL, hf]

/-- The stored rectangles of the spec's worked example for C6. -/
def rectsC6 : List Rect := [⟨10, 10, 20, 20⟩, ⟨200, 200, 10, 10⟩]

/-- The selection box of the spec's worked example for C6. -/
def selC6 : SelectionBox := ⟨0, 0, 100, 100⟩

/-- The initial state loaded with the C6 example rectangles. -/
def stateC6 : CanvasState :=
  { initState with storedOcrRects := some rectsC6 }

/-- Witness for C6 on the spec's worked example: only the first rectangle
intersects the selection. -/
theorem drawOcrRectsInSelection_filtered_witness :
    (stateC6.storedOcrRects = some rectsC6 ∧ rectsC6 ≠ []) ∧
    ((rectsToDraw rectsC6 selC6 ≠ [] →
       (drawOcrRectsInSelection stateC6 selC6).docElems
         = stateC6.docElems ++ (createElems stateC6 (rectsToDraw rectsC6 selC6)).1 ∧
       (createElems stateC6 (rectsToDraw rectsC6 selC6)).1.length
         = (rectsToDraw rectsC6 selC6).length ∧
       (drawOcrRectsInSelection stateC6 selC6).history.map BatchCommand.name
         = stateC6.history.map BatchCommand.name ++
             ["Create Occlusion Masks in Selection"]) ∧
     (rectsToDraw rectsC6 selC6 = [] → drawOcrRectsInSelection stateC6 selC6 = stateC6)) :=
  ⟨⟨rfl, by decide⟩, drawOcrRectsInSelection_filtered stateC6 rectsC6 selC6 rfl (by decide)⟩

/-- C1: a stored rectangle is selected by `drawOcrRectsInSelection` exactly
when the strict open-interval overlap test holds on both axes; the drawn
elements are exactly the filtered rectangles; and for boxes of positive
extents the test holds exactly when the overlap region has positive extent
on both axes (so boundary-only contact is never selected and positive-area
overlap always is). -/
theorem drawOcrRectsInSelection_strict_overlap (sel : SelectionBox) (rs : List Rect)
    (r : Rect) (s : CanvasState) (hs : s.storedOcrRects = some rs) :
    (r ∈ rectsToDraw rs sel ↔
      r ∈ rs ∧ sel.x < r.x + r.w ∧ sel.x + sel.width > r.x ∧
        sel.y < r.y + r.h ∧ sel.y + sel.height > r.y) ∧
    (drawOcrRectsInSelection s sel).docElems.map elemGeom
      = s.docElems.map elemGeom ++ (rectsToDraw rs sel).map rectGeom ∧
    (0 < sel.width → 0 < sel.height → 0 < r.w → 0 < r.h →
      (intersects sel r = true ↔
        max sel.x r.x < min (sel.x + sel.width) (r.x + r.w) ∧
        max sel.y r.y < min (sel.y + sel.height) (r.y + r.h))) := by
  refine ⟨?_, ?_, ?_⟩
  · simp [rectsToDraw, List.mem_filter, intersects, and_assoc]
  · by_cases hrs : rs.length = 0
    · have h0 : rs = [] := List.length_eq_zero.mp hrs
      subst h0
      simp [drawOcrRectsInSelection, hs, rectsToDraw]
    · by_cases hf : (rectsToDraw rs sel).length > 0
      · simp only [drawOcrRectsInSelection, hs, if_neg hrs, if_pos hf]
        rw [finalizeCreation_docElems, createElems_docElems]
        simp [createElems_geom]
      · have h0 : rectsToDraw rs sel = [] := by
          cases h' : rectsToDraw rs sel with
          | nil => rfl
          | cons a l => rw [h'] at hf; simp at hf
        simp [drawOcrRectsInSelection, hs, if_neg hrs, h0]
  · intro h1 h2 h3 h4
    simp only [intersects, Bool.and_eq_true, decide_eq_true_eq, gt_iff_lt,
      max_lt_iff, lt_min_iff]
    omega

/-- The stored rectangles of the spec's strictness example: one rectangle
overlapping the selection with positive area, one only touching its edge. -/
def rectsC1 : List Rect := [⟨9, 0, 5, 5⟩, ⟨10, 0, 5, 5⟩]

/-- The selection box of the spec's strictness example. -/
def selC1 : SelectionBox := ⟨0, 0, 10, 10⟩

/-- The overlapping rectangle of the spec's strictness example. -/
def rC1 : Rect := ⟨9, 0, 5, 5⟩

/-- The initial state loaded with the C1 example rectangles. -/
def stateC1 : CanvasState :=
  { initState with storedOcrRects := some rectsC1 }

/-- Witness for C1 on the spec's strictness example. -/
theorem drawOcrRectsInSelection_strict_overlap_witness :
    (stateC1.storedOcrRects = some rectsC1) ∧
    ((rC1 ∈ rectsToDraw rectsC1 selC1 ↔
       rC1 ∈ rectsC1 ∧ selC1.x < rC1.x + rC1.w ∧ selC1.x + selC1.width > rC1.x ∧
         selC1.y < rC1.y + rC1.h ∧ selC1.y + selC1.height > rC1.y) ∧
     (drawOcrRectsInSelection stateC1 selC1).docElems.map elemGeom
       = stateC1.docElems.map elemGeom ++ (rectsToDraw rectsC1 selC1).map rectGeom ∧
     (0 < selC1.width → 0 < selC1.height → 0 < rC1.w → 0 < rC1.h →
       (intersects selC1 rC1 = true ↔
         max selC1.x rC1.x < min (selC1.x + selC1.width) (rC1.x + rC1.w) ∧
         max selC1.y rC1.y < min (selC1.y + selC1.height) (rC1.y + rC1.h)))) :=
  ⟨rfl, drawOcrRectsInSelection_strict_overlap selC1 rectsC1 rC1 stateC1 rfl⟩
